import Mathlib

/-!
Reconciliation layer of the azurerm provider: App Service active slot, Automation DSC node
configuration, DNS AAAA record.

Shallow embedding of

* `azurerm/resource_arm_app_service_active_slot.go`
* `azurerm/resource_arm_automation_dsc_nodeconfiguration.go`
* `azurerm/resource_arm_dns_aaaa_record.go`

Conventions of the embedding.

* A Go pointer `*T` is `Option T` (`none` is `nil`); dereferencing `nil`
  is a run-time panic, made explicit by the `Go` result type.
* A Go `error` is `Option Error` (`none` is `nil`).  Every `fmt.Errorf`
  call site of the sources is one constructor of `Error`, carrying the
  arguments that are formatted into the message.
* The SDK clients are external: each client method is a field of a client
  structure, a function of an explicit remote world `W` returning the
  method's Go results together with the next world.  Every client call is
  appended to a call log.
* `schema.ResourceData` is the stored identifier together with a map from
  attribute name to value.
-/

namespace Azurerm

/-! ## Go run-time model -/

/-- Outcome of evaluating a Go expression that may panic at run time. -/
inductive Go (α : Type) where
  | done (a : α)
  | panicked
  deriving DecidableEq, Repr

/-- Pointer dereference `*p`: a nil pointer panics. -/
def deref {α : Type} (p : Option α) : Go α :=
  match p with
  | some a => .done a
  | none => .panicked

/-- An error value produced outside the three source files (SDK, identifier parser). -/
abbrev GoError := String

/-- The errors returned by the three source files, one constructor per `return` site. -/
inductive Error where
  /-- Statement `return err`: an error of a callee surfaced unchanged. -/
  | raw (e : GoError)
  /-- active_slot.go:51, "[DEBUG] App Service %q (resource group %q) was not found." -/
  | appServiceNotFound (appServiceName resourceGroup : String)
  /-- active_slot.go:53 and :100, "Error making Read request on AzureRM App Service %q: %+v" -/
  | appServiceReadFailed (name : String) (cause : GoError)
  /-- active_slot.go:59, "[DEBUG] App Service Target Active Slot %q/%q (resource group %q) was not found." -/
  | targetSlotNotFound (appServiceName targetSlot resourceGroup : String)
  /-- active_slot.go:61, "Error making Read request on AzureRM App Service Slot %q/%q: %+v" -/
  | targetSlotReadFailed (appServiceName targetSlot : String) (cause : GoError)
  /-- active_slot.go:71 and :75, "Error swapping App Service Slot %q/%q: %+v" -/
  | swapFailed (appServiceName targetSlot : String) (cause : GoError)
  /-- dsc_nodeconfiguration.go:94, "Cannot read Automation Dsc Node Configuration %q (resource group %q) ID" -/
  | dscCannotReadID (name resourceGroup : String)
  /-- dsc_nodeconfiguration.go:121, "Error making Read request on AzureRM Automation Dsc Node Configuration %q: %+v" -/
  | dscReadFailed (name : String) (cause : GoError)
  /-- dsc_nodeconfiguration.go:152, "Error issuing AzureRM delete request for Automation Dsc Node Configuration %q: %+v" -/
  | dscDeleteFailed (name : String) (cause : GoError)
  /-- dns_aaaa_record.go:85, "Cannot read DNS AAAA Record %s (resource group %s) ID" -/
  | dnsCannotReadID (name resourceGroup : String)
  /-- dns_aaaa_record.go:112, "Error reading DNS AAAA record %s: %v" -/
  | dnsReadFailed (name : String) (cause : GoError)
  /-- dns_aaaa_record.go:143, "Error deleting DNS AAAA Record %s: %+v"; the cause may be nil. -/
  | dnsDeleteFailed (name : String) (cause : Option GoError)
  deriving DecidableEq, Repr

/-- How a function of Go type `func(...) error` ends. -/
inductive Outcome where
  /-- The function returned; `none` is a nil error. -/
  | returned (err : Option Error)
  /-- The function panicked (nil dereference, index out of range). -/
  | panicked
  deriving DecidableEq, Repr

/-! ## HTTP responses -/

/-- The part of `net/http.Response` the sources inspect. -/
structure HttpResponse where
  StatusCode : Nat
  deriving DecidableEq, Repr

/-- The type `autorest.Response`: a struct embedding `*http.Response`. -/
structure AutorestResponse where
  Response : Option HttpResponse
  deriving DecidableEq, Repr

/-- The constant `http.StatusOK`. -/
def StatusOK : Nat := 200

/-- The constant `http.StatusNotFound`. -/
def StatusNotFound : Nat := 404

/-- Modelled from the spec: `utils.ResponseWasNotFound` (package `azurerm/utils`, not among
the sources) is the remote call's not-found signal: the response is present and its
status code is HTTP 404. -/
def ResponseWasNotFound (resp : AutorestResponse) : Bool :=
  match resp.Response with
  | some r => r.StatusCode == StatusNotFound
  | none => false

/-- Promoted field access `resp.StatusCode` on an `autorest.Response`. -/
def AutorestResponse.StatusCode (resp : AutorestResponse) : Go Nat :=
  match resp.Response with
  | some r => .done r.StatusCode
  | none => .panicked

/-! ## `schema.ResourceData` -/

/-- Values stored under an attribute of a resource. -/
inductive Value where
  | str (s : String)
  | int (n : Int)
  | set (l : List String)
  | map (m : List (String × String))
  deriving DecidableEq, Repr

/-- The stored identifier and the attribute map of `schema.ResourceData`. -/
structure ResourceData where
  id : String
  attrs : String → Option Value

namespace ResourceData

/-- The method `d.Id()`. -/
def Id (d : ResourceData) : String := d.id

/-- The method `d.SetId(v)`. -/
def SetId (d : ResourceData) (v : String) : ResourceData :=
  { d with id := v }

/-- The method `d.Set(key, value)`: a nil pointer value leaves the attribute unset. -/
def Set (d : ResourceData) (key : String) (value : Option Value) : ResourceData :=
  { d with attrs := fun k => if k = key then value else d.attrs k }

/-- The expression `d.Get(key).(string)`: the zero value when the attribute is unset. -/
def GetString (d : ResourceData) (key : String) : String :=
  match d.attrs key with
  | some (.str s) => s
  | _ => ""

/-- The expression `d.Get(key).(int)`. -/
def GetInt (d : ResourceData) (key : String) : Int :=
  match d.attrs key with
  | some (.int n) => n
  | _ => 0

/-- The expression `d.Get(key).(*schema.Set).List()`. -/
def GetSetList (d : ResourceData) (key : String) : List String :=
  match d.attrs key with
  | some (.set l) => l
  | _ => []

/-- The expression `d.Get(key).(map[string]interface{})`. -/
def GetMap (d : ResourceData) (key : String) : List (String × String) :=
  match d.attrs key with
  | some (.map m) => m
  | _ => []

end ResourceData

/-- The type `ResourceID` returned by `parseAzureResourceID`; `Path[k]` is `""` for a missing key. -/
structure ResourceID where
  SubscriptionID : String
  ResourceGroup : String
  Provider : String
  Path : String → String

/-! ## DNS AAAA records: expansion and flattening -/

/-- The type `dns.AaaaRecord`. -/
structure AaaaRecord where
  Ipv6Address : Option String
  deriving DecidableEq, Repr

/-- Loop of `flattenAzureRmDnsAaaaRecords`: `results = append(results, *record.Ipv6Address)`. -/
def flattenLoop : List AaaaRecord → List String → Go (List String)
  | [], results => .done results
  | record :: rest, results =>
    match deref record.Ipv6Address with
    | .panicked => .panicked
    | .done a => flattenLoop rest (results ++ [a])

/-- The function `flattenAzureRmDnsAaaaRecords` (dns_aaaa_record.go:149-159).  The capacity
argument `len(*records)` of `make` is evaluated before the `records != nil` guard. -/
def flattenAzureRmDnsAaaaRecords (records : Option (List AaaaRecord)) : Go (List String) :=
  match deref records with
  | .panicked => .panicked
  | .done _ =>
    let results : List String := []
    if records ≠ none then
      match deref records with
      | .panicked => .panicked
      | .done rs => flattenLoop rs results
    else
      .done results

/-- Loop of `expandAzureRmDnsAaaaRecords`: `records[i] = dns.AaaaRecord with Ipv6Address: &ipv6`,
where `ipv6` is a variable declared afresh in each iteration and never assigned again, so the
pointer is modelled by the value it points to. -/
def expandLoop : Nat → List String → List AaaaRecord → List AaaaRecord
  | _, [], records => records
  | i, v :: rest, records =>
    let ipv6 := v
    expandLoop (i + 1) rest (records.set i { Ipv6Address := some ipv6 })

/-- The function `expandAzureRmDnsAaaaRecords` (dns_aaaa_record.go:161-173). -/
def expandAzureRmDnsAaaaRecords (d : ResourceData) : List AaaaRecord × Option Error :=
  let recordStrings := d.GetSetList "records"
  let records := List.replicate recordStrings.length ({ Ipv6Address := none } : AaaaRecord)
  (expandLoop 0 recordStrings records, none)

/-! ## The Go standard library function `strings.Split`

Go strings are byte sequences.  The functions below work on the characters of a string; for
the separator "." of the sources, a single ASCII byte that never occurs inside a multi-byte
UTF-8 sequence, cutting at characters and cutting at bytes give the same pieces. -/

namespace strings

/-- The function `strings.Index` on character lists: the first position where `sep` occurs. -/
def indexChars : List Char → List Char → Option Nat
  | [], sep => if sep = [] then some 0 else none
  | c :: cs, sep =>
    if sep.isPrefixOf (c :: cs) then some 0 else (indexChars cs sep).map (· + 1)

/-- General loop of `strings.Count`: count non-overlapping occurrences, left to right. -/
def countLoop : Nat → List Char → List Char → Nat
  | 0, _, _ => 0
  | fuel + 1, s, sep =>
    match indexChars s sep with
    | none => 0
    | some i => 1 + countLoop fuel (s.drop (i + sep.length)) sep

/-- The function `strings.Count`, with its two special cases (empty and one-byte separator). -/
def countChars (s sep : List Char) : Nat :=
  match sep with
  | [] => s.length + 1
  | [c] => s.count c
  | _ => countLoop s.length s sep

/-- Loop of `genSplit`: at most `n` cuts, the rest of the string is the last element. -/
def genSplitLoop : Nat → List Char → List Char → List (List Char)
  | 0, s, _ => [s]
  | n + 1, s, sep =>
    match indexChars s sep with
    | none => [s]
    | some m => s.take m :: genSplitLoop n (s.drop (m + sep.length)) sep

/-- The function `explode` used by `genSplit` for an empty separator. -/
def explode (s : List Char) : List (List Char) :=
  s.map (fun c => [c])

/-- The function `genSplit(s, sep, 0, -1)` on character lists: `n` is `Count(s, sep) + 1` and
the loop makes at most `n - 1` cuts.  The clamp `n > len(s)+1` of `genSplit` never applies to a
non-empty separator, which occurs at most `len(s)` times. -/
def splitChars (s sep : List Char) : List (List Char) :=
  if sep = [] then explode s else genSplitLoop (countChars s sep) s sep

/-- The function `strings.Split(s, sep)`. -/
def Split (s sep : String) : List String :=
  (splitChars s.data sep.data).map String.mk

end strings

/-- Index expression `a[0]` on a slice: out of range on the empty slice. -/
def index0 {α : Type} (a : List α) : Go α :=
  match a with
  | [] => .panicked
  | x :: _ => .done x

/-! ## SDK types -/

/-- The type `web.SlotSwapStatus` (field read by the sources). -/
structure SlotSwapStatus where
  SourceSlotName : Option String
  deriving DecidableEq, Repr

/-- The type `web.SiteProperties` (fields read by the sources). -/
structure SiteProperties where
  ResourceGroup : Option String
  SlotSwapStatus : Option SlotSwapStatus
  deriving DecidableEq, Repr

/-- The type `web.Site`: it embeds `autorest.Response` and `*SiteProperties`. -/
structure Site where
  Response : AutorestResponse
  SiteProperties : Option SiteProperties
  ID : Option String
  Name : Option String
  deriving DecidableEq, Repr

/-- The type `web.CsmSlotEntity`. -/
structure CsmSlotEntity where
  TargetSlot : Option String
  PreserveVnet : Option Bool
  deriving DecidableEq, Repr

/-- The type `web.AppsSwapSlotWithProductionFuture`: an opaque operation handle. -/
structure SwapFuture where
  handle : Nat
  deriving DecidableEq, Repr

/-- The type `automation.ContentSourceType`. -/
inductive ContentSourceType where
  | EmbeddedContent
  | URI
  deriving DecidableEq, Repr

/-- The type `automation.ContentSource`. -/
structure ContentSource where
  SourceType : ContentSourceType
  Value : Option String
  deriving DecidableEq, Repr

/-- The type `automation.DscConfigurationAssociationProperty`. -/
structure DscConfigurationAssociationProperty where
  Name : Option String
  deriving DecidableEq, Repr

/-- The type `automation.DscNodeConfigurationCreateOrUpdateParameters`. -/
structure DscNodeConfigurationCreateOrUpdateParameters where
  Source : Option ContentSource
  Configuration : Option DscConfigurationAssociationProperty
  Name : Option String
  deriving DecidableEq, Repr

/-- The type `automation.DscNodeConfiguration`. -/
structure DscNodeConfiguration where
  Response : AutorestResponse
  Configuration : Option DscConfigurationAssociationProperty
  ID : Option String
  Name : Option String
  deriving DecidableEq, Repr

/-- The type `dns.RecordType`. -/
inductive RecordType where
  | A
  | AAAA
  | CNAME
  deriving DecidableEq, Repr

/-- The type `dns.RecordSetProperties` (fields used by the sources). -/
structure RecordSetProperties where
  Metadata : Option (List (String × Option String))
  TTL : Option Int
  AaaaRecords : Option (List AaaaRecord)
  deriving DecidableEq, Repr

/-- The type `dns.RecordSet`: it embeds `autorest.Response` and `*RecordSetProperties`. -/
structure RecordSet where
  Response : AutorestResponse
  ID : Option String
  Name : Option String
  RecordSetProperties : Option RecordSetProperties
  deriving DecidableEq, Repr

/-- Modelled from the spec: `expandTags` (tags.go, not among the sources) maps the declared
tag set to the remote metadata representation, one entry per tag. -/
def expandTags (tags : List (String × String)) : Option (List (String × Option String)) :=
  some (tags.map (fun kv => (kv.1, some kv.2)))

/-- Modelled from the spec: `flattenAndSetTags` (tags.go, not among the sources) maps the
remote metadata back to a tag set and stores it under `tags`. -/
def flattenAndSetTags (d : ResourceData) (metadata : Option (List (String × Option String))) :
    ResourceData :=
  match metadata with
  | none => d.Set "tags" (some (.map []))
  | some m => d.Set "tags" (some (.map (m.map (fun kv => (kv.1, kv.2.getD "")))))

/-! ## Remote clients and the call log -/

/-- One call of an SDK client method, with the arguments passed. -/
inductive Call where
  | appGet (resourceGroup name : String)
  | appSwapSlotWithProduction (resourceGroup name : String) (slotSwapEntity : CsmSlotEntity)
  | appWaitForCompletionRef (future : SwapFuture)
  | dscCreateOrUpdate (resourceGroup accName name : String)
      (parameters : DscNodeConfigurationCreateOrUpdateParameters)
  | dscGet (resourceGroup accName name : String)
  | dscDelete (resourceGroup accName name : String)
  | dnsCreateOrUpdate (resourceGroup zoneName name : String) (recordType : RecordType)
      (parameters : RecordSet) (eTag ifNoneMatch : String)
  | dnsGet (resourceGroup zoneName name : String) (recordType : RecordType)
  | dnsDelete (resourceGroup zoneName name : String) (recordType : RecordType) (ifMatch : String)
  deriving DecidableEq, Repr

/-- Whether a call is the mutating `SwapSlotWithProduction`. -/
def Call.isSwap : Call → Bool
  | .appSwapSlotWithProduction _ _ _ => true
  | _ => false

/-- The client `appServicesClient` over a remote world `W`. -/
structure AppServicesClient (W : Type) where
  Get : W → String → String → (Site × Option GoError) × W
  SwapSlotWithProduction : W → String → String → CsmSlotEntity → (SwapFuture × Option GoError) × W
  WaitForCompletionRef : W → SwapFuture → Option GoError × W

/-- The client `automationDscNodeConfigurationClient` over a remote world `W`. -/
structure AutomationDscNodeConfigurationClient (W : Type) where
  CreateOrUpdate : W → String → String → String → DscNodeConfigurationCreateOrUpdateParameters →
    (DscNodeConfiguration × Option GoError) × W
  Get : W → String → String → String → (DscNodeConfiguration × Option GoError) × W
  Delete : W → String → String → String → (AutorestResponse × Option GoError) × W

/-- The client `dnsClient` (record sets) over a remote world `W`. -/
structure DnsClient (W : Type) where
  CreateOrUpdate : W → String → String → String → RecordType → RecordSet → String → String →
    (RecordSet × Option GoError) × W
  Get : W → String → String → String → RecordType → (RecordSet × Option GoError) × W
  Delete : W → String → String → String → RecordType → String → (AutorestResponse × Option GoError) × W

/-- The type `ArmClient` (the `meta` argument), with the package-level identifier parser
`parseAzureResourceID` (resourceid.go, not among the sources) taken as a parameter. -/
structure ArmClient (W : Type) where
  appServicesClient : AppServicesClient W
  automationDscNodeConfigurationClient : AutomationDscNodeConfigurationClient W
  dnsClient : DnsClient W
  parseAzureResourceID : String → Except GoError ResourceID

/-- The state a resource function runs in: the resource data, the remote world and the log of
client calls issued so far. -/
structure Session (W : Type) where
  d : ResourceData
  w : W
  calls : List Call

/-- Append a client call to the log and move to the next remote world. -/
def Session.step {W : Type} (s : Session W) (w : W) (c : Call) : Session W :=
  { s with w := w, calls := s.calls ++ [c] }

/-! ## App Service active slot (resource_arm_app_service_active_slot.go) -/

/-- The function `resourceArmAppServiceActiveSlotRead` (lines 81-107).  `resp.ResourceGroup`
and `resp.SiteProperties.SlotSwapStatus` go through the embedded `*SiteProperties`. -/
def resourceArmAppServiceActiveSlotRead {W : Type} (m : ArmClient W) (s : Session W) :
    Outcome × Session W :=
  let client := m.appServicesClient
  match m.parseAzureResourceID s.d.Id with
  | .error e => (.returned (some (.raw e)), s)
  | .ok id =>
    let resourceGroup := id.ResourceGroup
    let name := id.Path "sites"
    let r := client.Get s.w resourceGroup name
    let resp := r.1.1
    let s1 := s.step r.2 (.appGet resourceGroup name)
    match r.1.2 with
    | some err =>
      if ResponseWasNotFound resp.Response then
        (.returned none, { s1 with d := s1.d.SetId "" })
      else
        (.returned (some (.appServiceReadFailed name err)), s1)
    | none =>
      let d1 := s1.d.Set "app_service_name" (resp.Name.map .str)
      match deref resp.SiteProperties with
      | .panicked => (.panicked, { s1 with d := d1 })
      | .done props =>
        let d2 := d1.Set "resource_group_name" (props.ResourceGroup.map .str)
        match deref props.SlotSwapStatus with
        | .panicked => (.panicked, { s1 with d := d2 })
        | .done status =>
          let d3 := d2.Set "app_service_slot_name" (status.SourceSlotName.map .str)
          (.returned none, { s1 with d := d3 })

/-- The function `resourceArmAppServiceActiveSlotCreate` (lines 39-79).  The response of the
second `Get` is discarded (`_, err = client.Get(...)`), so the not-found test at line 58
inspects `resp`, the response of the first `Get`; line 77 dereferences `resp.ID` unguarded. -/
def resourceArmAppServiceActiveSlotCreate {W : Type} (m : ArmClient W) (s : Session W) :
    Outcome × Session W :=
  let client := m.appServicesClient
  let appServiceName := s.d.GetString "app_service_name"
  let resourceGroup := s.d.GetString "resource_group_name"
  let targetSlot := s.d.GetString "app_service_slot_name"
  let preserveVnet := true
  let r1 := client.Get s.w resourceGroup appServiceName
  let resp := r1.1.1
  let s1 := s.step r1.2 (.appGet resourceGroup appServiceName)
  match r1.1.2 with
  | some err =>
    if ResponseWasNotFound resp.Response then
      (.returned (some (.appServiceNotFound appServiceName resourceGroup)), s1)
    else
      (.returned (some (.appServiceReadFailed appServiceName err)), s1)
  | none =>
    let r2 := client.Get s1.w resourceGroup targetSlot
    let s2 := s1.step r2.2 (.appGet resourceGroup targetSlot)
    match r2.1.2 with
    | some err =>
      if ResponseWasNotFound resp.Response then
        (.returned (some (.targetSlotNotFound appServiceName targetSlot resourceGroup)), s2)
      else
        (.returned (some (.targetSlotReadFailed appServiceName targetSlot err)), s2)
    | none =>
      let cmsSlotEntity : CsmSlotEntity :=
        { TargetSlot := some targetSlot, PreserveVnet := some preserveVnet }
      let r3 := client.SwapSlotWithProduction s2.w resourceGroup appServiceName cmsSlotEntity
      let future := r3.1.1
      let s3 := s2.step r3.2 (.appSwapSlotWithProduction resourceGroup appServiceName cmsSlotEntity)
      match r3.1.2 with
      | some err => (.returned (some (.swapFailed appServiceName targetSlot err)), s3)
      | none =>
        let r4 := client.WaitForCompletionRef s3.w future
        let s4 := s3.step r4.2 (.appWaitForCompletionRef future)
        match r4.1 with
        | some err => (.returned (some (.swapFailed appServiceName targetSlot err)), s4)
        | none =>
          match deref resp.ID with
          | .panicked => (.panicked, s4)
          | .done id =>
            resourceArmAppServiceActiveSlotRead m { s4 with d := s4.d.SetId id }

/-- The function `resourceArmAppServiceActiveSlotDelete` (lines 109-112): nothing to delete. -/
def resourceArmAppServiceActiveSlotDelete {W : Type} (_m : ArmClient W) (s : Session W) :
    Outcome × Session W :=
  (.returned none, s)

/-! ## Automation DSC node configuration (resource_arm_automation_dsc_nodeconfiguration.go) -/

/-- The expression `strings.Split(name, ".")[0]` of line 70. -/
def configurationNameOf (name : String) : Go String :=
  index0 (strings.Split name ".")

/-- The function `resourceArmAutomationDscNodeConfigurationRead` (lines 102-132). -/
def resourceArmAutomationDscNodeConfigurationRead {W : Type} (m : ArmClient W) (s : Session W) :
    Outcome × Session W :=
  let client := m.automationDscNodeConfigurationClient
  match m.parseAzureResourceID s.d.Id with
  | .error e => (.returned (some (.raw e)), s)
  | .ok id =>
    let resourceGroup := id.ResourceGroup
    let accName := id.Path "automationAccounts"
    let name := id.Path "nodeConfigurations"
    let r := client.Get s.w resourceGroup accName name
    let resp := r.1.1
    let s1 := s.step r.2 (.dscGet resourceGroup accName name)
    match r.1.2 with
    | some err =>
      if ResponseWasNotFound resp.Response then
        (.returned none, { s1 with d := s1.d.SetId "" })
      else
        (.returned (some (.dscReadFailed name err)), s1)
    | none =>
      let d1 := s1.d.Set "name" (resp.Name.map .str)
      let d2 := d1.Set "resource_group_name" (some (.str resourceGroup))
      let d3 := d2.Set "automation_account_name" (some (.str accName))
      match deref resp.Configuration with
      | .panicked => (.panicked, { s1 with d := d3 })
      | .done configuration =>
        let d4 := d3.Set "configuration_name" (configuration.Name.map .str)
        (.returned none, { s1 with d := d4 })

/-- The function `resourceArmAutomationDscNodeConfigurationCreateUpdate` (lines 56-100). -/
def resourceArmAutomationDscNodeConfigurationCreateUpdate {W : Type} (m : ArmClient W)
    (s : Session W) : Outcome × Session W :=
  let client := m.automationDscNodeConfigurationClient
  let name := s.d.GetString "name"
  let resourceGroup := s.d.GetString "resource_group_name"
  let accName := s.d.GetString "automation_account_name"
  let content := s.d.GetString "content_embedded"
  match configurationNameOf name with
  | .panicked => (.panicked, s)
  | .done configurationName =>
    let parameters : DscNodeConfigurationCreateOrUpdateParameters :=
      { Source := some { SourceType := .EmbeddedContent, Value := some content }
        Configuration := some { Name := some configurationName }
        Name := some name }
    let r1 := client.CreateOrUpdate s.w resourceGroup accName name parameters
    let s1 := s.step r1.2 (.dscCreateOrUpdate resourceGroup accName name parameters)
    match r1.1.2 with
    | some err => (.returned (some (.raw err)), s1)
    | none =>
      let r2 := client.Get s1.w resourceGroup accName name
      let read := r2.1.1
      let s2 := s1.step r2.2 (.dscGet resourceGroup accName name)
      match r2.1.2 with
      | some err => (.returned (some (.raw err)), s2)
      | none =>
        match read.ID with
        | none => (.returned (some (.dscCannotReadID name resourceGroup)), s2)
        | some id =>
          resourceArmAutomationDscNodeConfigurationRead m { s2 with d := s2.d.SetId id }

/-- The function `resourceArmAutomationDscNodeConfigurationDelete` (lines 134-156). -/
def resourceArmAutomationDscNodeConfigurationDelete {W : Type} (m : ArmClient W) (s : Session W) :
    Outcome × Session W :=
  let client := m.automationDscNodeConfigurationClient
  match m.parseAzureResourceID s.d.Id with
  | .error e => (.returned (some (.raw e)), s)
  | .ok id =>
    let resourceGroup := id.ResourceGroup
    let accName := id.Path "automationAccounts"
    let name := id.Path "nodeConfigurations"
    let r := client.Delete s.w resourceGroup accName name
    let resp := r.1.1
    let s1 := s.step r.2 (.dscDelete resourceGroup accName name)
    match r.1.2 with
    | some err =>
      if ResponseWasNotFound resp then
        (.returned none, s1)
      else
        (.returned (some (.dscDeleteFailed name err)), s1)
    | none => (.returned none, s1)

/-! ## DNS AAAA record (resource_arm_dns_aaaa_record.go) -/

/-- The function `resourceArmDnsAaaaRecordRead` (lines 93-126).  `resp.TTL`, `resp.AaaaRecords`
and `resp.Metadata` go through the embedded `*RecordSetProperties`; `d.Set("records", ...)` is
given a `[]string` for a set of strings and does not fail. -/
def resourceArmDnsAaaaRecordRead {W : Type} (m : ArmClient W) (s : Session W) :
    Outcome × Session W :=
  let dnsClient := m.dnsClient
  match m.parseAzureResourceID s.d.Id with
  | .error e => (.returned (some (.raw e)), s)
  | .ok id =>
    let resourceGroup := id.ResourceGroup
    let name := id.Path "AAAA"
    let zoneName := id.Path "dnszones"
    let r := dnsClient.Get s.w resourceGroup zoneName name .AAAA
    let resp := r.1.1
    let s1 := s.step r.2 (.dnsGet resourceGroup zoneName name .AAAA)
    match r.1.2 with
    | some err =>
      if ResponseWasNotFound resp.Response then
        (.returned none, { s1 with d := s1.d.SetId "" })
      else
        (.returned (some (.dnsReadFailed name err)), s1)
    | none =>
      let d1 := s1.d.Set "name" (some (.str name))
      let d2 := d1.Set "resource_group_name" (some (.str resourceGroup))
      let d3 := d2.Set "zone_name" (some (.str zoneName))
      match deref resp.RecordSetProperties with
      | .panicked => (.panicked, { s1 with d := d3 })
      | .done props =>
        let d4 := d3.Set "ttl" (props.TTL.map .int)
        match flattenAzureRmDnsAaaaRecords props.AaaaRecords with
        | .panicked => (.panicked, { s1 with d := d4 })
        | .done flat =>
          let d5 := d4.Set "records" (some (.set flat))
          (.returned none, { s1 with d := flattenAndSetTags d5 props.Metadata })

/-- The function `resourceArmDnsAaaaRecordCreateOrUpdate` (lines 53-91). -/
def resourceArmDnsAaaaRecordCreateOrUpdate {W : Type} (m : ArmClient W) (s : Session W) :
    Outcome × Session W :=
  let client := m.dnsClient
  let name := s.d.GetString "name"
  let resourceGroup := s.d.GetString "resource_group_name"
  let zoneName := s.d.GetString "zone_name"
  let ttl := s.d.GetInt "ttl"
  let tags := s.d.GetMap "tags"
  let e := expandAzureRmDnsAaaaRecords s.d
  let records := e.1
  match e.2 with
  | some err => (.returned (some err), s)
  | none =>
    let parameters : RecordSet :=
      { Response := { Response := none }
        ID := none
        Name := some name
        RecordSetProperties := some
          { Metadata := expandTags tags, TTL := some ttl, AaaaRecords := some records } }
    let eTag := ""
    let ifNoneMatch := ""
    let r := client.CreateOrUpdate s.w resourceGroup zoneName name .AAAA parameters eTag ifNoneMatch
    let resp := r.1.1
    let s1 := s.step r.2
      (.dnsCreateOrUpdate resourceGroup zoneName name .AAAA parameters eTag ifNoneMatch)
    match r.1.2 with
    | some err => (.returned (some (.raw err)), s1)
    | none =>
      match resp.ID with
      | none => (.returned (some (.dnsCannotReadID name resourceGroup)), s1)
      | some id => resourceArmDnsAaaaRecordRead m { s1 with d := s1.d.SetId id }

/-- The function `resourceArmDnsAaaaRecordDelete` (lines 128-147): the returned `err` is not
tested, only `resp.StatusCode` is compared with `http.StatusOK`. -/
def resourceArmDnsAaaaRecordDelete {W : Type} (m : ArmClient W) (s : Session W) :
    Outcome × Session W :=
  let dnsClient := m.dnsClient
  match m.parseAzureResourceID s.d.Id with
  | .error e => (.returned (some (.raw e)), s)
  | .ok id =>
    let resourceGroup := id.ResourceGroup
    let name := id.Path "AAAA"
    let zoneName := id.Path "dnszones"
    let r := dnsClient.Delete s.w resourceGroup zoneName name .AAAA ""
    let resp := r.1.1
    let err := r.1.2
    let s1 := s.step r.2 (.dnsDelete resourceGroup zoneName name .AAAA "")
    match resp.StatusCode with
    | .panicked => (.panicked, s1)
    | .done statusCode =>
      if statusCode ≠ StatusOK then
        (.returned (some (.dnsDeleteFailed name err)), s1)
      else
        (.returned none, s1)

/-! ## Concrete environments

Remote worlds without state (`W = Unit`) whose clients answer with fixed responses; they are
the concrete inputs at which the functions above are evaluated below. -/

/-- Identifier of an App Service. -/
def siteIdText : String :=
  "/subscriptions/S1/resourceGroups/RG1/providers/Microsoft.Web/sites/app1"

/-- Identifier of a DSC node configuration. -/
def nodeConfigurationIdText : String :=
  "/subscriptions/S1/resourceGroups/RG1/providers/Microsoft.Automation/automationAccounts/acc1/nodeConfigurations/webserver.prod"

/-- Identifier of a DNS AAAA record set. -/
def recordIdText : String :=
  "/subscriptions/S1/resourceGroups/RG1/providers/Microsoft.Network/dnszones/zone1/AAAA/rec1"

/-- The decoded form of the three identifiers above. -/
def decodedSample (provider : String) (path : List (String × String)) : ResourceID :=
  { SubscriptionID := "S1"
    ResourceGroup := "RG1"
    Provider := provider
    Path := fun k => ((path.find? (fun kv => kv.1 == k)).map (fun kv => kv.2)).getD "" }

/-- An identifier parser that decodes the three identifiers above and rejects the rest. -/
def parseSample (id : String) : Except GoError ResourceID :=
  if id = siteIdText then
    .ok (decodedSample "Microsoft.Web" [("sites", "app1")])
  else if id = nodeConfigurationIdText then
    .ok (decodedSample "Microsoft.Automation"
      [("automationAccounts", "acc1"), ("nodeConfigurations", "webserver.prod")])
  else if id = recordIdText then
    .ok (decodedSample "Microsoft.Network" [("dnszones", "zone1"), ("AAAA", "rec1")])
  else
    .error "Cannot parse Azure Id"

/-- An HTTP response with the given status code. -/
def httpStatus (code : Nat) : AutorestResponse :=
  { Response := some { StatusCode := code } }

/-- An App Service client answering `Get` by site name, with fixed swap and wait results. -/
def appClientOf (get : String → Site × Option GoError) (swap : SwapFuture × Option GoError)
    (wait : Option GoError) : AppServicesClient Unit :=
  { Get := fun w _ name => (get name, w)
    SwapSlotWithProduction := fun w _ _ _ => (swap, w)
    WaitForCompletionRef := fun w _ => (wait, w) }

/-- A DSC node configuration client with fixed results. -/
def dscClientOf (createOrUpdate get : DscNodeConfiguration × Option GoError)
    (delete : AutorestResponse × Option GoError) : AutomationDscNodeConfigurationClient Unit :=
  { CreateOrUpdate := fun w _ _ _ _ => (createOrUpdate, w)
    Get := fun w _ _ _ => (get, w)
    Delete := fun w _ _ _ => (delete, w) }

/-- A DNS record set client with fixed results. -/
def dnsClientOf (createOrUpdate get : RecordSet × Option GoError)
    (delete : AutorestResponse × Option GoError) : DnsClient Unit :=
  { CreateOrUpdate := fun w _ _ _ _ _ _ _ => (createOrUpdate, w)
    Get := fun w _ _ _ _ => (get, w)
    Delete := fun w _ _ _ _ _ => (delete, w) }

/-- A site response: status code, identifier, and the active slot it reports. -/
def siteOf (code : Nat) (id : Option String) (name : String) : Site :=
  { Response := httpStatus code
    SiteProperties := some
      { ResourceGroup := some "RG1", SlotSwapStatus := some { SourceSlotName := some "staging" } }
    ID := id
    Name := some name }

/-- The empty `web.Site` that accompanies a failed call, carrying only the HTTP response. -/
def siteFailed (code : Nat) : Site :=
  { Response := httpStatus code, SiteProperties := none, ID := none, Name := none }

/-- A node configuration response. -/
def nodeConfigurationOf (code : Nat) (id : Option String) : DscNodeConfiguration :=
  { Response := httpStatus code
    Configuration := some { Name := some "webserver" }
    ID := id
    Name := some "webserver.prod" }

/-- The empty `automation.DscNodeConfiguration` that accompanies a failed call. -/
def nodeConfigurationFailed (code : Nat) : DscNodeConfiguration :=
  { Response := httpStatus code, Configuration := none, ID := none, Name := none }

/-- A record set response with the given identifier and AAAA records. -/
def recordSetOf (code : Nat) (id : Option String) (records : Option (List AaaaRecord)) :
    RecordSet :=
  { Response := httpStatus code
    ID := id
    Name := some "rec1"
    RecordSetProperties := some { Metadata := none, TTL := some 300, AaaaRecords := records } }

/-- The empty `dns.RecordSet` that accompanies a failed call. -/
def recordSetFailed (code : Nat) : RecordSet :=
  { Response := httpStatus code, ID := none, Name := none, RecordSetProperties := none }

/-- Clients whose every call succeeds and returns objects that carry their identifier. -/
def appClientOk : AppServicesClient Unit :=
  appClientOf (fun name => (siteOf 200 (some siteIdText) name, none)) (⟨0⟩, none) none

/-- A DSC client whose every call succeeds. -/
def dscClientOk : AutomationDscNodeConfigurationClient Unit :=
  dscClientOf (nodeConfigurationOf 200 (some nodeConfigurationIdText), none)
    (nodeConfigurationOf 200 (some nodeConfigurationIdText), none) (httpStatus 200, none)

/-- A DNS client whose every call succeeds. -/
def dnsClientOk : DnsClient Unit :=
  dnsClientOf (recordSetOf 200 (some recordIdText) (some []), none)
    (recordSetOf 200 (some recordIdText) (some []), none) (httpStatus 200, none)

/-- The `meta` value built from three clients and the sample identifier parser. -/
def armOf (app : AppServicesClient Unit) (dsc : AutomationDscNodeConfigurationClient Unit)
    (dns : DnsClient Unit) : ArmClient Unit :=
  { appServicesClient := app
    automationDscNodeConfigurationClient := dsc
    dnsClient := dns
    parseAzureResourceID := parseSample }

/-- Resource data with the given identifier and string attributes. -/
def dataOf (id : String) (strs : List (String × String)) (records : List String) : ResourceData :=
  { id := id
    attrs := fun k =>
      if k = "records" then some (.set records)
      else if k = "ttl" then some (.int 300)
      else (strs.find? (fun kv => kv.1 == k)).map (fun kv => .str kv.2) }

/-- A fresh session: no client call issued yet. -/
def sessionOf (d : ResourceData) : Session Unit :=
  { d := d, w := (), calls := [] }

/-- An App Service client for which the app `app1` exists and the slot `staging` does not:
`Get` of `staging` fails with HTTP 404, every other `Get` succeeds with HTTP 200. -/
def appClientSlotMissing : AppServicesClient Unit :=
  appClientOf
    (fun name =>
      if name = "staging" then (siteFailed 404, some "StatusCode=404")
      else (siteOf 200 (some siteIdText) name, none))
    (⟨0⟩, none) none

/-- An App Service client for which no app exists, answering as `web.AppsClient.Get` does for a
missing site: the response has HTTP 404, the returned `web.Site` is empty and the error is nil
(the responder of that `Get` accepts 404 beside 200). -/
def appClientAppAbsent : AppServicesClient Unit :=
  appClientOf (fun _ => (siteFailed 404, none)) (⟨0⟩, none) none

/-- An App Service client for which the app `app1` exists and the slot `staging` does not,
answering as `web.AppsClient.Get` does: `Get` of `staging` gives HTTP 404 with a nil error,
every other `Get` succeeds with HTTP 200. -/
def appClientSlotAbsent : AppServicesClient Unit :=
  appClientOf
    (fun name =>
      if name = "staging" then (siteFailed 404, none)
      else (siteOf 200 (some siteIdText) name, none))
    (⟨0⟩, none) none

/-- An App Service client whose every call succeeds and whose sites carry no identifier. -/
def appClientNoID : AppServicesClient Unit :=
  appClientOf (fun name => (siteOf 200 none name, none)) (⟨0⟩, none) none

/-- A DSC client whose every call succeeds and whose objects carry no identifier. -/
def dscClientNoID : AutomationDscNodeConfigurationClient Unit :=
  dscClientOf (nodeConfigurationOf 200 none, none) (nodeConfigurationOf 200 none, none)
    (httpStatus 200, none)

/-- A DNS client whose every call succeeds and whose record sets carry no identifier. -/
def dnsClientNoID : DnsClient Unit :=
  dnsClientOf (recordSetOf 200 none (some []), none) (recordSetOf 200 none (some []), none)
    (httpStatus 200, none)

/-- Clients for which the remote object is absent: `Get` and `Delete` fail with HTTP 404. -/
def armAbsent : ArmClient Unit :=
  armOf (appClientOf (fun _ => (siteFailed 404, some "StatusCode=404")) (⟨0⟩, none) none)
    (dscClientOf (nodeConfigurationFailed 404, some "StatusCode=404")
      (nodeConfigurationFailed 404, some "StatusCode=404") (httpStatus 404, some "StatusCode=404"))
    (dnsClientOf (recordSetFailed 404, some "StatusCode=404")
      (recordSetFailed 404, some "StatusCode=404") (httpStatus 404, some "StatusCode=404"))

/-- Clients for which every call fails with HTTP 500. -/
def armUnavailable : ArmClient Unit :=
  armOf (appClientOf (fun _ => (siteFailed 500, some "StatusCode=500")) (⟨0⟩, none) none)
    (dscClientOf (nodeConfigurationFailed 500, some "StatusCode=500")
      (nodeConfigurationFailed 500, some "StatusCode=500") (httpStatus 500, some "StatusCode=500"))
    (dnsClientOf (recordSetFailed 500, some "StatusCode=500")
      (recordSetFailed 500, some "StatusCode=500") (httpStatus 500, some "StatusCode=500"))

/-- Declared state of an active-slot binding of `app1` to slot `staging`, not yet created. -/
def activeSlotDeclared : ResourceData :=
  dataOf "" [("app_service_name", "app1"), ("resource_group_name", "RG1"),
    ("app_service_slot_name", "staging")] []

/-- Declared state of the node configuration `webserver.prod`, not yet created. -/
def nodeConfigurationDeclared : ResourceData :=
  dataOf "" [("name", "webserver.prod"), ("resource_group_name", "RG1"),
    ("automation_account_name", "acc1"), ("content_embedded", "Configuration webserver")] []

/-- Declared state of the record set `rec1` with two addresses, not yet created. -/
def recordDeclared : ResourceData :=
  dataOf "" [("name", "rec1"), ("resource_group_name", "RG1"), ("zone_name", "zone1")]
    ["2001:db8::1", "2001:db8::2"]

end Azurerm

namespace Azurerm

/-! ## Lemmas on `strings.Split` with the separator "." -/

theorem indexChars_dot (cs : List Char) :
    strings.indexChars cs ['.'] =
      if '.' ∈ cs then some (cs.takeWhile (fun c => c != '.')).length else none := by
  induction cs with
  | nil => simp [strings.indexChars]
  | cons c cs ih =>
    by_cases hc : c = '.'
    · subst hc
      simp [strings.indexChars, List.isPrefixOf]
    · have hc2 : ¬ ('.' = c) := fun h => hc h.symm
      simp only [strings.indexChars, List.isPrefixOf, ih]
      by_cases hm : '.' ∈ cs <;> simp [hc, hc2, hm, List.takeWhile_cons]

theorem take_length_takeWhile (p : Char → Bool) (cs : List Char) :
    cs.take (cs.takeWhile p).length = cs.takeWhile p := by
  induction cs with
  | nil => simp
  | cons c cs ih =>
    by_cases hc : p c = true <;> simp [List.takeWhile_cons, hc, ih]

theorem takeWhile_ne_dot_of_not_mem (cs : List Char) (h : '.' ∉ cs) :
    cs.takeWhile (fun c => c != '.') = cs := by
  induction cs with
  | nil => simp
  | cons c cs ih =>
    simp only [List.mem_cons, not_or] at h
    have hc : c ≠ '.' := fun e => h.1 e.symm
    simp [List.takeWhile_cons, hc, ih h.2]

theorem index0_splitChars_dot (cs : List Char) :
    index0 (strings.splitChars cs ['.']) = .done (cs.takeWhile (fun c => c != '.')) := by
  have hsep : (['.'] : List Char) ≠ [] := by simp
  simp only [strings.splitChars, hsep, if_false, strings.countChars]
  cases hn : cs.count '.' with
  | zero =>
    have hnot : '.' ∉ cs := List.count_eq_zero.mp hn
    simp [strings.genSplitLoop, index0, takeWhile_ne_dot_of_not_mem cs hnot]
  | succ n =>
    have hmem : '.' ∈ cs := by
      apply List.count_pos_iff.mp
      omega
    simp [strings.genSplitLoop, indexChars_dot, hmem, index0, take_length_takeWhile]

theorem configurationNameOf_eq (name : String) :
    configurationNameOf name = .done (String.mk (name.data.takeWhile (fun c => c != '.'))) := by
  have h := index0_splitChars_dot name.data
  unfold configurationNameOf strings.Split
  have hd : (".".data : List Char) = ['.'] := rfl
  rw [hd]
  cases hs : strings.splitChars name.data ['.'] with
  | nil => rw [hs] at h; simp [index0] at h
  | cons x xs =>
    rw [hs] at h
    simp only [index0, Go.done.injEq] at h
    simp [index0, h]

theorem not_dot_mem_takeWhile (cs : List Char) : '.' ∉ cs.takeWhile (fun c => c != '.') := by
  intro h
  have := List.mem_takeWhile_imp h
  simp at this

theorem dropWhile_ne_dot_head (cs : List Char) :
    cs.dropWhile (fun c => c != '.') = [] ∨
      (cs.dropWhile (fun c => c != '.')).head? = some '.' := by
  induction cs with
  | nil => simp
  | cons c cs ih =>
    by_cases hc : c = '.'
    · subst hc
      right
      simp [List.dropWhile_cons]
    · simpa [List.dropWhile_cons, hc] using ih

theorem prefix_takeWhile_ne_dot (p : List Char) :
    ∀ cs : List Char, p <+: cs → '.' ∉ p → p <+: cs.takeWhile (fun c => c != '.') := by
  induction p with
  | nil => intro cs _ _; exact List.nil_prefix
  | cons a p ih =>
    intro cs hp hdot
    cases cs with
    | nil => simp at hp
    | cons c cs =>
      obtain ⟨hac, hp2⟩ := List.cons_prefix_cons.mp hp
      subst hac
      simp only [List.mem_cons, not_or] at hdot
      have ha : a ≠ '.' := fun e => hdot.1 e.symm
      simp only [List.takeWhile_cons, bne_iff_ne, ne_eq, ha, not_false_eq_true, if_true]
      exact List.cons_prefix_cons.mpr ⟨rfl, ih cs hp2 hdot.2⟩

/-! ## Lemmas on record expansion and flattening -/

theorem set_length_append (pre : List AaaaRecord) (b a : AaaaRecord) (t : List AaaaRecord) :
    (pre ++ b :: t).set pre.length a = pre ++ a :: t := by
  induction pre with
  | nil => simp
  | cons x pre ih => simp [ih]

theorem expandLoop_append (xs : List String) :
    ∀ (pre mid suf : List AaaaRecord), mid.length = xs.length →
      expandLoop pre.length xs (pre ++ mid ++ suf) =
        pre ++ xs.map (fun v => ({ Ipv6Address := some v } : AaaaRecord)) ++ suf := by
  induction xs with
  | nil =>
    intro pre mid suf h
    have : mid = [] := List.length_eq_zero.mp h
    simp [expandLoop, this]
  | cons v rest ih =>
    intro pre mid suf h
    cases mid with
    | nil => simp at h
    | cons b mid =>
      have hlen : mid.length = rest.length := by simpa using h
      have hset : (pre ++ b :: mid ++ suf).set pre.length { Ipv6Address := some v } =
          (pre ++ [({ Ipv6Address := some v } : AaaaRecord)]) ++ mid ++ suf := by
        simp
      have hnext := ih (pre ++ [({ Ipv6Address := some v } : AaaaRecord)]) mid suf hlen
      simp only [List.length_append, List.length_singleton] at hnext
      simp only [expandLoop, hset, hnext]
      simp

theorem expandLoop_replicate (xs : List String) :
    expandLoop 0 xs (List.replicate xs.length ({ Ipv6Address := none } : AaaaRecord)) =
      xs.map (fun v => ({ Ipv6Address := some v } : AaaaRecord)) := by
  have h := expandLoop_append xs [] (List.replicate xs.length { Ipv6Address := none }) []
    (by simp)
  simpa using h

theorem flattenLoop_map (xs : List String) :
    ∀ acc : List String,
      flattenLoop (xs.map (fun v => ({ Ipv6Address := some v } : AaaaRecord))) acc =
        .done (acc ++ xs) := by
  induction xs with
  | nil => intro acc; simp [flattenLoop]
  | cons v rest ih =>
    intro acc
    simp [flattenLoop, deref, ih]

/-! ## Lemmas on the call log -/

theorem dscRead_calls_extend {W : Type} (m : ArmClient W) (s : Session W) (pre : List Call)
    (h : ∃ u, s.calls = pre ++ u) :
    ∃ tail, (resourceArmAutomationDscNodeConfigurationRead m s).2.calls = pre ++ tail := by
  obtain ⟨u, hu⟩ := h
  unfold resourceArmAutomationDscNodeConfigurationRead
  split
  · exact ⟨u, hu⟩
  · simp only
    split
    · split <;> simp only [Session.step, hu] <;> exact ⟨_, List.append_assoc _ _ _⟩
    · split <;> simp only [Session.step, hu] <;> exact ⟨_, List.append_assoc _ _ _⟩

/-! ## Name derivation -/

/-- C2: in `resourceArmAutomationDscNodeConfigurationCreateUpdate` the first client call is
`CreateOrUpdate`, whose parameters carry the full declared name as `Name` and, as configuration
(parent) name, the head segment `cfg` of the name split on the first ".": the name is `cfg`
followed by nothing or by a rest that starts with ".", `cfg` contains no ".", every prefix of
the name without "." is a prefix of `cfg`, a name without "." is passed unchanged, and a name
with a "." is never itself the parent key; "webserver.prod" gives "webserver", "webserver"
gives "webserver" and "a.b.c" gives "a". -/
theorem dsc_createUpdate_parent_is_head_segment {W : Type} (m : ArmClient W) (s : Session W) :
    ∃ cfg : String, ∃ tail : List Call,
      configurationNameOf (s.d.GetString "name") = .done cfg ∧
      (resourceArmAutomationDscNodeConfigurationCreateUpdate m s).2.calls =
        s.calls ++ Call.dscCreateOrUpdate (s.d.GetString "resource_group_name")
          (s.d.GetString "automation_account_name") (s.d.GetString "name")
          { Source := some
              { SourceType := .EmbeddedContent, Value := some (s.d.GetString "content_embedded") }
            Configuration := some { Name := some cfg }
            Name := some (s.d.GetString "name") } :: tail ∧
      (∃ rest : List Char, (s.d.GetString "name").data = cfg.data ++ rest ∧
        (rest = [] ∨ rest.head? = some '.')) ∧
      '.' ∉ cfg.data ∧
      (∀ p : List Char, p <+: (s.d.GetString "name").data → '.' ∉ p → p <+: cfg.data) ∧
      ('.' ∉ (s.d.GetString "name").data → cfg = s.d.GetString "name") ∧
      ('.' ∈ (s.d.GetString "name").data → cfg ≠ s.d.GetString "name") ∧
      configurationNameOf "webserver.prod" = .done "webserver" ∧
      configurationNameOf "webserver" = .done "webserver" ∧
      configurationNameOf "a.b.c" = .done "a" := by
  have hcfg := configurationNameOf_eq (s.d.GetString "name")
  have hcalls : ∃ tail : List Call,
      (resourceArmAutomationDscNodeConfigurationCreateUpdate m s).2.calls =
        (s.calls ++ [Call.dscCreateOrUpdate (s.d.GetString "resource_group_name")
          (s.d.GetString "automation_account_name") (s.d.GetString "name")
          { Source := some
              { SourceType := .EmbeddedContent, Value := some (s.d.GetString "content_embedded") }
            Configuration := some
              { Name := some (String.mk ((s.d.GetString "name").data.takeWhile
                  (fun c => c != '.'))) }
            Name := some (s.d.GetString "name") }]) ++ tail := by
    unfold resourceArmAutomationDscNodeConfigurationCreateUpdate
    simp only [hcfg]
    split
    · exact ⟨[], by simp [Session.step]⟩
    · split
      · exact ⟨[Call.dscGet (s.d.GetString "resource_group_name")
          (s.d.GetString "automation_account_name") (s.d.GetString "name")],
          by simp [Session.step]⟩
      · split
        · exact ⟨[Call.dscGet (s.d.GetString "resource_group_name")
            (s.d.GetString "automation_account_name") (s.d.GetString "name")],
            by simp [Session.step]⟩
        · apply dscRead_calls_extend
          exact ⟨[Call.dscGet (s.d.GetString "resource_group_name")
            (s.d.GetString "automation_account_name") (s.d.GetString "name")],
            by simp [Session.step]⟩
  obtain ⟨tail, htail⟩ := hcalls
  refine ⟨_, tail, hcfg, by simpa using htail, ?_, ?_, ?_, ?_, ?_, ?_, ?_, ?_⟩
  · exact ⟨(s.d.GetString "name").data.dropWhile (fun c => c != '.'),
      (List.takeWhile_append_dropWhile _ _).symm, dropWhile_ne_dot_head _⟩
  · exact not_dot_mem_takeWhile _
  · intro p hp hdot
    exact prefix_takeWhile_ne_dot p _ hp hdot
  · intro h
    have := takeWhile_ne_dot_of_not_mem _ h
    simp [this]
  · intro h heq
    have h2 : '.' ∈ (String.mk ((s.d.GetString "name").data.takeWhile
        (fun c => c != '.'))).data := by
      rw [heq]
      exact h
    exact not_dot_mem_takeWhile _ h2
  · decide
  · decide
  · decide

/-! ## Record expansion and flattening -/

/-- C9, evaluation at the failing input: on a nil pointer `flattenAzureRmDnsAaaaRecords`
panics instead of returning the empty list, and so does `resourceArmDnsAaaaRecordRead` when
the remote record set has no AAAA records field. -/
theorem flatten_nil_pointer_panics :
    flattenAzureRmDnsAaaaRecords none = .panicked ∧
    (resourceArmDnsAaaaRecordRead
      (armOf appClientOk dscClientOk
        (dnsClientOf (recordSetOf 200 (some recordIdText) none, none)
          (recordSetOf 200 (some recordIdText) none, none) (httpStatus 200, none)))
      (sessionOf (dataOf recordIdText [] []))).1 = .panicked := by
  decide

/-- C10: for every declared list `xs` of record strings, `expandAzureRmDnsAaaaRecords` returns
no error and exactly `len(xs)` records, the i-th holding `xs[i]` as its `Ipv6Address`, and
`flattenAzureRmDnsAaaaRecords` applied to a pointer to that result returns `xs`. -/
theorem expand_then_flatten_is_identity (d : ResourceData) (xs : List String)
    (h : d.attrs "records" = some (.set xs)) :
    (expandAzureRmDnsAaaaRecords d).2 = none ∧
    (expandAzureRmDnsAaaaRecords d).1.length = xs.length ∧
    (∀ (i : Nat) (v : String), xs[i]? = some v →
      (expandAzureRmDnsAaaaRecords d).1[i]? = some { Ipv6Address := some v }) ∧
    flattenAzureRmDnsAaaaRecords (some (expandAzureRmDnsAaaaRecords d).1) = .done xs := by
  have hget : d.GetSetList "records" = xs := by simp [ResourceData.GetSetList, h]
  have hexp : (expandAzureRmDnsAaaaRecords d).1 =
      xs.map (fun v => ({ Ipv6Address := some v } : AaaaRecord)) := by
    simp only [expandAzureRmDnsAaaaRecords, hget]
    exact expandLoop_replicate xs
  refine ⟨rfl, ?_, ?_, ?_⟩
  · simp [hexp]
  · intro i v hv
    simp [hexp, hv]
  · rw [hexp]
    simp [flattenAzureRmDnsAaaaRecords, deref, flattenLoop_map]

/-- Witness of C10 at the declared records of `recordDeclared`. -/
theorem expand_then_flatten_is_identity_witness :
    (expandAzureRmDnsAaaaRecords recordDeclared).2 = none ∧
    (expandAzureRmDnsAaaaRecords recordDeclared).1.length = 2 ∧
    flattenAzureRmDnsAaaaRecords (some (expandAzureRmDnsAaaaRecords recordDeclared).1) =
      .done ["2001:db8::1", "2001:db8::2"] :=
  have h := expand_then_flatten_is_identity recordDeclared ["2001:db8::1", "2001:db8::2"]
    (by decide)
  ⟨h.1, h.2.1, h.2.2.2⟩

/-! ## Read: absent object versus transport error -/

/-- Error branch of the three Read operations: for every stored identifier the parser accepts,
when the remote `Get` returns a non-nil error `e`: if the response is a not-found response,
Read returns no error and the stored identifier becomes the empty string; otherwise Read
returns an error (wrapping `e`) and the stored identifier is unchanged. -/
theorem read_error_branch_absent_or_error {W : Type} (m : ArmClient W) (s : Session W)
    (rid : ResourceID) (e : GoError) (hid : m.parseAzureResourceID s.d.Id = .ok rid) :
    ((m.appServicesClient.Get s.w rid.ResourceGroup (rid.Path "sites")).1.2 = some e →
      (ResponseWasNotFound
          (m.appServicesClient.Get s.w rid.ResourceGroup (rid.Path "sites")).1.1.Response = true →
        (resourceArmAppServiceActiveSlotRead m s).1 = .returned none ∧
        (resourceArmAppServiceActiveSlotRead m s).2.d.Id = "") ∧
      (ResponseWasNotFound
          (m.appServicesClient.Get s.w rid.ResourceGroup (rid.Path "sites")).1.1.Response = false →
        (resourceArmAppServiceActiveSlotRead m s).1 =
          .returned (some (.appServiceReadFailed (rid.Path "sites") e)) ∧
        (resourceArmAppServiceActiveSlotRead m s).2.d.Id = s.d.Id)) ∧
    ((m.automationDscNodeConfigurationClient.Get s.w rid.ResourceGroup
        (rid.Path "automationAccounts") (rid.Path "nodeConfigurations")).1.2 = some e →
      (ResponseWasNotFound
          (m.automationDscNodeConfigurationClient.Get s.w rid.ResourceGroup
            (rid.Path "automationAccounts") (rid.Path "nodeConfigurations")).1.1.Response = true →
        (resourceArmAutomationDscNodeConfigurationRead m s).1 = .returned none ∧
        (resourceArmAutomationDscNodeConfigurationRead m s).2.d.Id = "") ∧
      (ResponseWasNotFound
          (m.automationDscNodeConfigurationClient.Get s.w rid.ResourceGroup
            (rid.Path "automationAccounts") (rid.Path "nodeConfigurations")).1.1.Response = false →
        (resourceArmAutomationDscNodeConfigurationRead m s).1 =
          .returned (some (.dscReadFailed (rid.Path "nodeConfigurations") e)) ∧
        (resourceArmAutomationDscNodeConfigurationRead m s).2.d.Id = s.d.Id)) ∧
    ((m.dnsClient.Get s.w rid.ResourceGroup (rid.Path "dnszones") (rid.Path "AAAA") .AAAA).1.2 =
        some e →
      (ResponseWasNotFound
          (m.dnsClient.Get s.w rid.ResourceGroup (rid.Path "dnszones") (rid.Path "AAAA")
            .AAAA).1.1.Response = true →
        (resourceArmDnsAaaaRecordRead m s).1 = .returned none ∧
        (resourceArmDnsAaaaRecordRead m s).2.d.Id = "") ∧
      (ResponseWasNotFound
          (m.dnsClient.Get s.w rid.ResourceGroup (rid.Path "dnszones") (rid.Path "AAAA")
            .AAAA).1.1.Response = false →
        (resourceArmDnsAaaaRecordRead m s).1 =
          .returned (some (.dnsReadFailed (rid.Path "AAAA") e)) ∧
        (resourceArmDnsAaaaRecordRead m s).2.d.Id = s.d.Id)) := by
  have hid2 : m.parseAzureResourceID s.d.id = .ok rid := hid
  refine ⟨?_, ?_, ?_⟩
  · intro hg
    constructor
    · intro hnf
      simp [resourceArmAppServiceActiveSlotRead, hid, hid2, hg, hnf, ResourceData.SetId,
        ResourceData.Id, Session.step]
    · intro hnf
      simp [resourceArmAppServiceActiveSlotRead, hid, hid2, hg, hnf, Session.step]
  · intro hg
    constructor
    · intro hnf
      simp [resourceArmAutomationDscNodeConfigurationRead, hid, hid2, hg, hnf, ResourceData.SetId,
        ResourceData.Id, Session.step]
    · intro hnf
      simp [resourceArmAutomationDscNodeConfigurationRead, hid, hid2, hg, hnf, Session.step]
  · intro hg
    constructor
    · intro hnf
      simp [resourceArmDnsAaaaRecordRead, hid, hid2, hg, hnf, ResourceData.SetId,
        ResourceData.Id, Session.step]
    · intro hnf
      simp [resourceArmDnsAaaaRecordRead, hid, hid2, hg, hnf, Session.step]

/-- C1, evaluation at the failing input: the app behind the stored identifier has been removed
and `Get` answers HTTP 404 with a nil error.  `resourceArmAppServiceActiveSlotRead` tests for
not-found only under `err != nil`, so it goes on to line 104, panics on `resp.ResourceGroup`
(a field of the nil `*SiteProperties`) and leaves the stored identifier in place, where the
two sibling Reads, whose clients report 404 with an error, return nil and clear it; a failure
other than not-found is returned as an error with the identifier kept. -/
theorem activeSlotRead_absent_app_panics :
    (appClientAppAbsent.Get () "RG1" "app1").1.2 = none ∧
    ResponseWasNotFound (appClientAppAbsent.Get () "RG1" "app1").1.1.Response = true ∧
    (resourceArmAppServiceActiveSlotRead (armOf appClientAppAbsent dscClientOk dnsClientOk)
      (sessionOf (dataOf siteIdText [] []))).1 = .panicked ∧
    (resourceArmAppServiceActiveSlotRead (armOf appClientAppAbsent dscClientOk dnsClientOk)
      (sessionOf (dataOf siteIdText [] []))).2.d.Id = siteIdText ∧
    (resourceArmAutomationDscNodeConfigurationRead armAbsent
      (sessionOf (dataOf nodeConfigurationIdText [] []))).1 = .returned none ∧
    (resourceArmAutomationDscNodeConfigurationRead armAbsent
      (sessionOf (dataOf nodeConfigurationIdText [] []))).2.d.Id = "" ∧
    (resourceArmDnsAaaaRecordRead armAbsent (sessionOf (dataOf recordIdText [] []))).1 =
      .returned none ∧
    (resourceArmDnsAaaaRecordRead armAbsent (sessionOf (dataOf recordIdText [] []))).2.d.Id = "" ∧
    (resourceArmAppServiceActiveSlotRead armUnavailable (sessionOf (dataOf siteIdText [] []))).1 =
      .returned (some (.appServiceReadFailed "app1" "StatusCode=500")) ∧
    (resourceArmAppServiceActiveSlotRead armUnavailable
      (sessionOf (dataOf siteIdText [] []))).2.d.Id = siteIdText := by
  decide

/-! ## Active slot: precondition reads before the swap -/

/-- Error branch of `resourceArmAppServiceActiveSlotCreate`: if the read of the app service or
the read of the target slot returns a non-nil error, Create returns an error, the client
calls it issued are the one or two `Get` calls only, so `SwapSlotWithProduction` is not
invoked, and the stored identifier is not set. -/
theorem activeSlotCreate_error_branch_issues_no_swap {W : Type} (m : ArmClient W) (s : Session W)
    (h : (m.appServicesClient.Get s.w (s.d.GetString "resource_group_name")
            (s.d.GetString "app_service_name")).1.2 ≠ none ∨
         (m.appServicesClient.Get
            (m.appServicesClient.Get s.w (s.d.GetString "resource_group_name")
              (s.d.GetString "app_service_name")).2
            (s.d.GetString "resource_group_name") (s.d.GetString "app_service_slot_name")).1.2 ≠
           none) :
    (∃ err, (resourceArmAppServiceActiveSlotCreate m s).1 = .returned (some err)) ∧
    ((resourceArmAppServiceActiveSlotCreate m s).2.calls =
        s.calls ++ [Call.appGet (s.d.GetString "resource_group_name")
          (s.d.GetString "app_service_name")] ∨
     (resourceArmAppServiceActiveSlotCreate m s).2.calls =
        s.calls ++ [Call.appGet (s.d.GetString "resource_group_name")
          (s.d.GetString "app_service_name"),
          Call.appGet (s.d.GetString "resource_group_name")
            (s.d.GetString "app_service_slot_name")]) ∧
    (resourceArmAppServiceActiveSlotCreate m s).2.calls.countP Call.isSwap =
      s.calls.countP Call.isSwap ∧
    (resourceArmAppServiceActiveSlotCreate m s).2.d.Id = s.d.Id := by
  cases hr1 : (m.appServicesClient.Get s.w (s.d.GetString "resource_group_name")
      (s.d.GetString "app_service_name")).1.2 with
  | some e1 =>
    by_cases hnf : ResponseWasNotFound (m.appServicesClient.Get s.w
        (s.d.GetString "resource_group_name") (s.d.GetString "app_service_name")).1.1.Response = true
    · simp [resourceArmAppServiceActiveSlotCreate, hr1, hnf, Session.step, Call.isSwap]
    · simp [resourceArmAppServiceActiveSlotCreate, hr1, hnf, Session.step, Call.isSwap]
  | none =>
    rw [hr1] at h
    have h2 := h.resolve_left (fun hne => hne rfl)
    cases hr2 : (m.appServicesClient.Get
        (m.appServicesClient.Get s.w (s.d.GetString "resource_group_name")
          (s.d.GetString "app_service_name")).2
        (s.d.GetString "resource_group_name") (s.d.GetString "app_service_slot_name")).1.2 with
    | none => exact absurd hr2 h2
    | some e2 =>
      by_cases hnf : ResponseWasNotFound (m.appServicesClient.Get s.w
          (s.d.GetString "resource_group_name")
          (s.d.GetString "app_service_name")).1.1.Response = true
      · simp [resourceArmAppServiceActiveSlotCreate, hr1, hr2, hnf, Session.step, Call.isSwap]
      · simp [resourceArmAppServiceActiveSlotCreate, hr1, hr2, hnf, Session.step, Call.isSwap]

/-- C3, evaluation at the failing input: the app `app1` exists and the target slot `staging`
does not, its `Get` answering HTTP 404 with a nil error.  Only `err != nil` stands between the
reads and the swap and the slot response is discarded at line 56, so
`resourceArmAppServiceActiveSlotCreate` issues `SwapSlotWithProduction` towards the missing
slot, stores the identifier and returns nil. -/
theorem activeSlotCreate_absent_slot_still_swaps :
    (appClientSlotAbsent.Get () "RG1" "app1").1.2 = none ∧
    (appClientSlotAbsent.Get () "RG1" "staging").1.2 = none ∧
    ResponseWasNotFound (appClientSlotAbsent.Get () "RG1" "staging").1.1.Response = true ∧
    (resourceArmAppServiceActiveSlotCreate (armOf appClientSlotAbsent dscClientOk dnsClientOk)
      (sessionOf activeSlotDeclared)).1 = .returned none ∧
    (resourceArmAppServiceActiveSlotCreate (armOf appClientSlotAbsent dscClientOk dnsClientOk)
      (sessionOf activeSlotDeclared)).2.calls =
        [.appGet "RG1" "app1", .appGet "RG1" "staging",
          .appSwapSlotWithProduction "RG1" "app1"
            { TargetSlot := some "staging", PreserveVnet := some true },
          .appWaitForCompletionRef ⟨0⟩, .appGet "RG1" "app1"] ∧
    (resourceArmAppServiceActiveSlotCreate (armOf appClientSlotAbsent dscClientOk dnsClientOk)
      (sessionOf activeSlotDeclared)).2.calls.countP Call.isSwap = 1 ∧
    (resourceArmAppServiceActiveSlotCreate (armOf appClientSlotAbsent dscClientOk dnsClientOk)
      (sessionOf activeSlotDeclared)).2.d.Id = siteIdText ∧
    (resourceArmAppServiceActiveSlotCreate (armOf appClientSlotAbsent dscClientOk dnsClientOk)
      (sessionOf activeSlotDeclared)).2.d.attrs "app_service_slot_name" =
        some (.str "staging") := by
  decide

/-! ## Delete of a node configuration -/

/-- C7: for every stored identifier the parser accepts,
`resourceArmAutomationDscNodeConfigurationDelete` returns nil exactly when the remote `Delete`
succeeds or fails with a not-found response; any other failure `e` is returned as an error. -/
theorem dscDelete_ok_iff_deleted_or_absent {W : Type} (m : ArmClient W) (s : Session W)
    (rid : ResourceID) (hid : m.parseAzureResourceID s.d.Id = .ok rid) :
    ((resourceArmAutomationDscNodeConfigurationDelete m s).1 = .returned none ↔
      ((m.automationDscNodeConfigurationClient.Delete s.w rid.ResourceGroup
          (rid.Path "automationAccounts") (rid.Path "nodeConfigurations")).1.2 = none ∨
       ((m.automationDscNodeConfigurationClient.Delete s.w rid.ResourceGroup
          (rid.Path "automationAccounts") (rid.Path "nodeConfigurations")).1.2 ≠ none ∧
        ResponseWasNotFound (m.automationDscNodeConfigurationClient.Delete s.w rid.ResourceGroup
          (rid.Path "automationAccounts") (rid.Path "nodeConfigurations")).1.1 = true))) ∧
    (∀ e : GoError,
      (m.automationDscNodeConfigurationClient.Delete s.w rid.ResourceGroup
          (rid.Path "automationAccounts") (rid.Path "nodeConfigurations")).1.2 = some e →
      ResponseWasNotFound (m.automationDscNodeConfigurationClient.Delete s.w rid.ResourceGroup
          (rid.Path "automationAccounts") (rid.Path "nodeConfigurations")).1.1 = false →
      (resourceArmAutomationDscNodeConfigurationDelete m s).1 =
        .returned (some (.dscDeleteFailed (rid.Path "nodeConfigurations") e))) := by
  cases hr : (m.automationDscNodeConfigurationClient.Delete s.w rid.ResourceGroup
      (rid.Path "automationAccounts") (rid.Path "nodeConfigurations")).1.2 with
  | none => simp [resourceArmAutomationDscNodeConfigurationDelete, hid, hr]
  | some e1 =>
    by_cases hnf : ResponseWasNotFound (m.automationDscNodeConfigurationClient.Delete s.w
        rid.ResourceGroup (rid.Path "automationAccounts") (rid.Path "nodeConfigurations")).1.1 = true
    · simp [resourceArmAutomationDscNodeConfigurationDelete, hid, hr, hnf]
    · simp [resourceArmAutomationDscNodeConfigurationDelete, hid, hr, hnf]

/-- Witness of C7: deleting the node configuration `webserver.prod` when the remote answers
HTTP 404 returns nil. -/
theorem dscDelete_ok_iff_deleted_or_absent_witness :
    (resourceArmAutomationDscNodeConfigurationDelete armAbsent
      (sessionOf (dataOf nodeConfigurationIdText [] []))).1 = .returned none :=
  (dscDelete_ok_iff_deleted_or_absent armAbsent (sessionOf (dataOf nodeConfigurationIdText [] []))
    (decodedSample "Microsoft.Automation"
      [("automationAccounts", "acc1"), ("nodeConfigurations", "webserver.prod")])
    (by rfl)).1.mpr (Or.inr ⟨by decide, by decide⟩)

/-! ## Read of a node configuration: frame -/

/-- C8: `resourceArmAutomationDscNodeConfigurationRead` never writes `content_embedded`:
whatever the prior state and the remote outcome, the attribute is the same after Read as
before, and every attribute other than `name`, `resource_group_name`,
`automation_account_name` and `configuration_name` is left as it was; on a successful read
these four are written from the remote name, the decoded identifier and the remote
configuration name. -/
theorem dscRead_preserves_content_embedded {W : Type} (m : ArmClient W) (s : Session W) :
    (resourceArmAutomationDscNodeConfigurationRead m s).2.d.attrs "content_embedded" =
      s.d.attrs "content_embedded" ∧
    (resourceArmAutomationDscNodeConfigurationRead m s).2.d.GetString "content_embedded" =
      s.d.GetString "content_embedded" ∧
    (∀ k : String,
      k ∉ ["name", "resource_group_name", "automation_account_name", "configuration_name"] →
      (resourceArmAutomationDscNodeConfigurationRead m s).2.d.attrs k = s.d.attrs k) ∧
    (∀ (rid : ResourceID) (c : DscConfigurationAssociationProperty),
      m.parseAzureResourceID s.d.Id = .ok rid →
      (m.automationDscNodeConfigurationClient.Get s.w rid.ResourceGroup
        (rid.Path "automationAccounts") (rid.Path "nodeConfigurations")).1.2 = none →
      (m.automationDscNodeConfigurationClient.Get s.w rid.ResourceGroup
        (rid.Path "automationAccounts") (rid.Path "nodeConfigurations")).1.1.Configuration =
          some c →
      (resourceArmAutomationDscNodeConfigurationRead m s).1 = .returned none ∧
      (resourceArmAutomationDscNodeConfigurationRead m s).2.d.attrs "name" =
        (m.automationDscNodeConfigurationClient.Get s.w rid.ResourceGroup
          (rid.Path "automationAccounts") (rid.Path "nodeConfigurations")).1.1.Name.map .str ∧
      (resourceArmAutomationDscNodeConfigurationRead m s).2.d.attrs "resource_group_name" =
        some (.str rid.ResourceGroup) ∧
      (resourceArmAutomationDscNodeConfigurationRead m s).2.d.attrs "automation_account_name" =
        some (.str (rid.Path "automationAccounts")) ∧
      (resourceArmAutomationDscNodeConfigurationRead m s).2.d.attrs "configuration_name" =
        c.Name.map .str) := by
  have frame : ∀ k : String,
      k ∉ ["name", "resource_group_name", "automation_account_name", "configuration_name"] →
      (resourceArmAutomationDscNodeConfigurationRead m s).2.d.attrs k = s.d.attrs k := by
    intro k hk
    simp only [List.mem_cons, List.mem_singleton, List.not_mem_nil, or_false, not_or] at hk
    obtain ⟨h1, h2, h3, h4⟩ := hk
    unfold resourceArmAutomationDscNodeConfigurationRead
    split
    · rfl
    · simp only
      split
      · split <;> simp [Session.step, ResourceData.SetId]
      · split <;> simp [Session.step, ResourceData.Set, h1, h2, h3, h4]
  have hc := frame "content_embedded" (by decide)
  refine ⟨hc, by simp [ResourceData.GetString, hc], frame, ?_⟩
  intro rid c hid hg hcfg
  simp [resourceArmAutomationDscNodeConfigurationRead, hid, hg, hcfg, deref, Session.step,
    ResourceData.Set]

/-- Witness of C8: reading the node configuration `webserver.prod` from a remote that has it
keeps the declared `content_embedded` and writes `configuration_name`. -/
theorem dscRead_preserves_content_embedded_witness :
    (resourceArmAutomationDscNodeConfigurationRead (armOf appClientOk dscClientOk dnsClientOk)
      (sessionOf (dataOf nodeConfigurationIdText
        [("content_embedded", "Configuration webserver")] []))).2.d.attrs "content_embedded" =
          some (.str "Configuration webserver") ∧
    (resourceArmAutomationDscNodeConfigurationRead (armOf appClientOk dscClientOk dnsClientOk)
      (sessionOf (dataOf nodeConfigurationIdText
        [("content_embedded", "Configuration webserver")] []))).2.d.attrs "configuration_name" =
          some (.str "webserver") :=
  have h := dscRead_preserves_content_embedded (armOf appClientOk dscClientOk dnsClientOk)
    (sessionOf (dataOf nodeConfigurationIdText [("content_embedded", "Configuration webserver")] []))
  ⟨h.1.trans (by decide),
   (h.2.2.2 (decodedSample "Microsoft.Automation"
      [("automationAccounts", "acc1"), ("nodeConfigurations", "webserver.prod")])
      { Name := some "webserver" } (by rfl) (by decide) (by decide)).2.2.2.2⟩

/-! ## Evaluations at concrete inputs -/

/-- C4, evaluation at the failing input: the read of the app `app1` succeeds (HTTP 200), the
read of the target slot `staging` fails with a not-found response (HTTP 404), and
`resourceArmAppServiceActiveSlotCreate` returns the generic read error of line 61, not the
"was not found" error of line 59, because line 58 tests the response of the first read. -/
theorem activeSlotCreate_missing_slot_reported_as_read_error :
    (appClientSlotMissing.Get () "RG1" "app1").1.2 = none ∧
    (appClientSlotMissing.Get () "RG1" "staging").1.2 = some "StatusCode=404" ∧
    ResponseWasNotFound (appClientSlotMissing.Get () "RG1" "staging").1.1.Response = true ∧
    (resourceArmAppServiceActiveSlotCreate (armOf appClientSlotMissing dscClientOk dnsClientOk)
      (sessionOf activeSlotDeclared)).1 =
        .returned (some (.targetSlotReadFailed "app1" "staging" "StatusCode=404")) ∧
    (resourceArmAppServiceActiveSlotCreate (armOf appClientSlotMissing dscClientOk dnsClientOk)
      (sessionOf activeSlotDeclared)).1 ≠
        .returned (some (.targetSlotNotFound "app1" "staging" "RG1")) := by
  decide

/-- C5, evaluation at the failing input: the remote `Delete` of the record set `rec1` reports
not found (HTTP 404) and `resourceArmDnsAaaaRecordDelete` returns the error of line 143
instead of nil. -/
theorem dnsDelete_absent_returns_error :
    ResponseWasNotFound (armAbsent.dnsClient.Delete () "RG1" "zone1" "rec1" .AAAA "").1.1 = true ∧
    (resourceArmDnsAaaaRecordDelete armAbsent (sessionOf (dataOf recordIdText [] []))).1 =
      .returned (some (.dnsDeleteFailed "rec1" (some "StatusCode=404"))) := by
  decide

/-- C6, evaluation at the failing input: every remote call succeeds and the remote objects
carry no identifier.  `resourceArmAppServiceActiveSlotCreate` panics on `*resp.ID` after the
swap has been issued, while the two sibling upserts return their "Cannot read ... ID" error,
set no identifier and issue no follow-up `Get`. -/
theorem activeSlotCreate_nil_identifier_panics :
    (resourceArmAppServiceActiveSlotCreate (armOf appClientNoID dscClientNoID dnsClientNoID)
      (sessionOf activeSlotDeclared)).1 = .panicked ∧
    (resourceArmAppServiceActiveSlotCreate (armOf appClientNoID dscClientNoID dnsClientNoID)
      (sessionOf activeSlotDeclared)).2.calls =
        [.appGet "RG1" "app1", .appGet "RG1" "staging",
          .appSwapSlotWithProduction "RG1" "app1"
            { TargetSlot := some "staging", PreserveVnet := some true },
          .appWaitForCompletionRef ⟨0⟩] ∧
    (resourceArmAutomationDscNodeConfigurationCreateUpdate
      (armOf appClientNoID dscClientNoID dnsClientNoID) (sessionOf nodeConfigurationDeclared)).1 =
        .returned (some (.dscCannotReadID "webserver.prod" "RG1")) ∧
    (resourceArmAutomationDscNodeConfigurationCreateUpdate
      (armOf appClientNoID dscClientNoID dnsClientNoID)
      (sessionOf nodeConfigurationDeclared)).2.d.Id = "" ∧
    (resourceArmAutomationDscNodeConfigurationCreateUpdate
      (armOf appClientNoID dscClientNoID dnsClientNoID)
      (sessionOf nodeConfigurationDeclared)).2.calls.length = 2 ∧
    (resourceArmDnsAaaaRecordCreateOrUpdate (armOf appClientNoID dscClientNoID dnsClientNoID)
      (sessionOf recordDeclared)).1 = .returned (some (.dnsCannotReadID "rec1" "RG1")) ∧
    (resourceArmDnsAaaaRecordCreateOrUpdate (armOf appClientNoID dscClientNoID dnsClientNoID)
      (sessionOf recordDeclared)).2.d.Id = "" ∧
    (resourceArmDnsAaaaRecordCreateOrUpdate (armOf appClientNoID dscClientNoID dnsClientNoID)
      (sessionOf recordDeclared)).2.calls.length = 1 := by
  decide

end Azurerm
